import Mathlib

/-!
Shallow embedding of the QuestPlay SDK (src/questplay-sdk.js), which contains
two variants of the `QuestPlaySDK` class:

* Variant 1 (lines 6-198): per-game `message` listeners registered in `addGame`,
  routing of inbound messages by origin comparison against the game's iframe URL,
  a `removeGame` method, and an `updateLocaleAndCurrency` inbound action.
* Variant 2 (lines 199-424): a single `message` listener registered in the
  constructor, routing of inbound messages by `event.source` identity
  (`iframe.contentWindow`), no removal, and no `updateLocaleAndCurrency` action.

JavaScript values that matter to the protocol (message payloads, truthiness,
property access, destructuring of `null`) are modelled by `JsVal`.  Host
callbacks (`onError`, `onGameResult`, `onGameLoad`) are modelled by observable
events carrying the id of the session record through which the callback was
reached.  Uncaught exceptions of handlers are modelled explicitly
(`Option JsErr` components / `Except`), since variant 1 can throw.
-/

namespace QuestPlay

/-- Model of a JavaScript value as far as the SDK protocol inspects values:
strings, numbers, plain objects (ordered key-value lists), `null` and
`undefined`. -/
inductive JsVal where
  | undef : JsVal
  | null : JsVal
  | str : String → JsVal
  | num : Int → JsVal
  | obj : List (String × JsVal) → JsVal

/-- Emptiness of a string, computed on its character list (the character-list
form reduces inside the kernel, unlike the byte-position form). -/
def strIsEmpty (s : String) : Bool := s.data.isEmpty

/-- The `s.startsWith(p)` test, computed on character lists. -/
def strStartsWith (s p : String) : Bool := p.data.isPrefixOf s.data

/-- JavaScript truthiness of a `JsVal`: `undefined`, `null`, the empty string
and `0` are falsy; every other modelled value is truthy. -/
def truthy : JsVal → Bool
  | .undef => false
  | .null => false
  | .str s => !(strIsEmpty s)
  | .num n => n != 0
  | .obj _ => true

/-- Property access `v[k]` on a value that is not `null`/`undefined`: a missing
key, or access on a string/number primitive, yields `undefined` (the callers
below guard the nullish cases exactly where the JavaScript source does). -/
def getProp : JsVal → String → JsVal
  | .obj fs, k => ((fs.find? (fun p => decide (p.1 = k))).map (fun p => p.2)).getD .undef
  | _, _ => (JsVal.undef : JsVal)

/-- Strict equality `v === "s"` against a string literal. -/
def isStrEq (v : JsVal) (s : String) : Bool :=
  match v with
  | .str t => decide (t = s)
  | _ => false

/-- Whether a value is `null` or `undefined` (destructuring such a value
throws a `TypeError` in JavaScript). -/
def isNullish : JsVal → Bool
  | .null => true
  | .undef => true
  | _ => false

/-- A thrown JavaScript error (the SDK can only throw `TypeError`s). -/
inductive JsErr where
  | typeError : String → JsErr
  deriving DecidableEq, Repr

/-! ### JavaScript object-as-map operations

`this.games` is a plain object keyed by game id: lookup, insert-or-overwrite
(preserving insertion order, appending new keys) and `delete`. -/

/-- Lookup `m[k]` in an insertion-ordered string-keyed map. -/
def getK : List (String × α) → String → Option α
  | [], _ => none
  | p :: t, k => if p.1 = k then some p.2 else getK t k

/-- Assignment `m[k] = v`: overwrite in place if the key is present (object
keys are unique, so the first occurrence is the only one), else append
(JavaScript objects preserve insertion order for string keys). -/
def setK : List (String × α) → String → α → List (String × α)
  | [], k, v => [(k, v)]
  | p :: t, k, v => if p.1 = k then (k, v) :: t else p :: setK t k v

/-- Deletion `delete m[k]`. -/
def delK (m : List (String × α)) (k : String) : List (String × α) :=
  m.filter (fun p => p.1 ≠ k)

/-- Origin of a URL as computed by `new URL(s).origin` for the http/https URLs
that pass `addGame`'s `startsWith("http")` validation; a string without a
well-formed `http(s)://host` prefix makes the `URL` constructor throw, which is
modelled by `Except.error`. -/
def urlOrigin (s : String) : Except JsErr String :=
  if strStartsWith s "https://" then
    let host := (s.data.drop 8).takeWhile (fun c => c != '/' && c != '?' && c != '#')
    if host.isEmpty then .error (.typeError "Invalid URL")
    else .ok (String.mk ("https://".data ++ host))
  else if strStartsWith s "http://" then
    let host := (s.data.drop 7).takeWhile (fun c => c != '/' && c != '?' && c != '#')
    if host.isEmpty then .error (.typeError "Invalid URL")
    else .ok (String.mk ("http://".data ++ host))
  else .error (.typeError "Invalid URL")

/-! ### Observable events

Outbound `postMessage` calls and host-callback invocations, in program order.
A callback event carries the id of the session record whose stored callback is
invoked. -/

/-- Which stored host callback of a session is invoked. -/
inductive CbKind where
  | onError : CbKind
  | onGameResult : CbKind
  | onGameLoad : CbKind
  deriving DecidableEq, Repr

/-- An observable protocol event: a `postMessage` to an embedded context
(identified by its `contentWindow` id) with its payload and target origin, or
an invocation of a session's stored host callback with its argument. -/
inductive Ev where
  | post : Nat → JsVal → String → Ev
  | call : String → CbKind → JsVal → Ev

/-- An inbound `message` event: its `origin`, its `source` (the sending
window's identity, absent for a sender the model does not track) and its
`data`. -/
structure MsgEvent where
  origin : String
  source : Option Nat
  data : JsVal

/-! ## Variant 1 (lines 6-198 of src/questplay-sdk.js) -/

/-- Stored per-game record of variant 1 (`this.games[gameId]`): the iframe
(its `contentWindow` identity and attachment), the iframe URL, and the user
context.  `locale`/`currency` are arbitrary values because inbound
`updateLocaleAndCurrency` payload fields are assigned unchecked. -/
structure Game1 where
  iframeWin : Nat
  iframeParent : Option String
  iframeUrl : String
  userId : JsVal
  locale : JsVal
  currency : JsVal

/-- The closure installed as `iframe.onload` in variant 1: it captures the
game id, the user id, the resolved balance and whether the host supplied an
`onGameLoad` callback.  It survives `removeGame`, so it is kept outside the
registry. -/
structure Onload1 where
  gameId : String
  userId : JsVal
  balance : JsVal
  hasOnGameLoad : Bool

/-- Variant 1 SDK state: the game registry, the registered window `message`
listeners (function identity paired with the game id the listener was bound
to), and fresh-identity counters for bound functions and iframe content
windows. -/
structure SDK1 where
  games : List (String × Game1)
  listeners : List (Nat × String)
  nextFun : Nat
  nextWin : Nat

/-- Freshly constructed variant 1 SDK (`new QuestPlaySDK(debug)`). -/
def init1 : SDK1 :=
  { games := [], listeners := [], nextFun := 0, nextWin := 0 }

/-- Configuration passed to variant 1 `addGame`.  `gameId` is an arbitrary
value (the code checks `typeof`), `iframeUrl` is a string or absent,
`getUserBalance` is absent when not a function and otherwise yields either a
resolved value or a thrown error. -/
structure Config1 where
  gameId : JsVal
  containerId : String
  iframeUrl : Option String
  userId : JsVal
  getUserBalance : Option (Except Unit JsVal)
  locale : JsVal
  currency : JsVal
  hasOnGameLoad : Bool

/-- Failure outcomes of variant 1 `addGame` (each an early `return` after a
`console.error`/`console.warn`, leaving the SDK state untouched). -/
inductive AddErr1 where
  | invalidGameId : AddErr1
  | duplicateSession : AddErr1
  | containerNotFound : AddErr1
  | invalidUrl : AddErr1
  | invalidBalanceFn : AddErr1
  deriving DecidableEq, Repr

/-- Variant 1 `addGame` (lines 34-114): validates `gameId`, uniqueness,
container, URL and `getUserBalance` in that order; resolves the balance
(a throwing fetch is caught and replaced by `0`); creates the iframe, registers
the game record and appends a freshly bound `message` listener.  Returns the
new state together with the installed `iframe.onload` closure, or the original
state and the failure. -/
def addGame1 (cfg : Config1) (dom : List String) (st : SDK1) :
    SDK1 × Except AddErr1 Onload1 :=
  match cfg.gameId with
  | .str gid =>
    if strIsEmpty gid then (st, .error .invalidGameId)
    else if (getK st.games gid).isSome then (st, .error .duplicateSession)
    else if !(dom.any (fun c => decide (c = cfg.containerId))) then (st, .error .containerNotFound)
    else
      match cfg.iframeUrl with
      | none => (st, .error .invalidUrl)
      | some url =>
        if !(strStartsWith url "http") then (st, .error .invalidUrl)
        else
          match cfg.getUserBalance with
          | none => (st, .error .invalidBalanceFn)
          | some fetch =>
            let balance : JsVal :=
              match fetch with
              | .ok b => b
              | .error _ => .num 0
            let win := st.nextWin
            let g : Game1 :=
              { iframeWin := win
                iframeParent := some cfg.containerId
                iframeUrl := url
                userId := cfg.userId
                locale := if truthy cfg.locale then cfg.locale else .str "en-US"
                currency := if truthy cfg.currency then cfg.currency else .str "TZS" }
            let st' : SDK1 :=
              { games := setK st.games gid g
                listeners := st.listeners ++ [(st.nextFun, gid)]
                nextFun := st.nextFun + 1
                nextWin := win + 1 }
            (st', .ok { gameId := gid, userId := cfg.userId, balance := balance,
                        hasOnGameLoad := cfg.hasOnGameLoad })
  | _ => (st, .error .invalidGameId)

/-- Failure outcome of variant 1 `removeGame` on an absent id. -/
inductive RemErr where
  | notFound : RemErr
  deriving DecidableEq, Repr

/-- Variant 1 `removeGame` (lines 118-128): warns and returns if the id is
absent; otherwise detaches the iframe, deletes the registry entry, and calls
`removeEventListener` with a *freshly bound* function — no registered listener
has that new function identity, so the filter removes nothing (the source's
`this.handleMessage.bind(this, gameId)` at line 127 creates a new function). -/
def removeGame1 (gid : String) (st : SDK1) : SDK1 × Except RemErr Unit :=
  match getK st.games gid with
  | none => (st, .error .notFound)
  | some _ =>
    let fresh := st.nextFun
    ({ games := delK st.games gid
       listeners := st.listeners.filter (fun p => p.1 != fresh)
       nextFun := fresh + 1
       nextWin := st.nextWin }, .ok ())

/-- Variant 1 `postMessage` (lines 136-143): looks the game up and, when it
exists (its iframe content window is always present in this model), posts the
payload to the game's content window with the game's iframe URL as target
origin; otherwise it silently does nothing. -/
def postMessage1 (st : SDK1) (gid : String) (payload : JsVal) : List Ev :=
  match getK st.games gid with
  | some g => [Ev.post g.iframeWin payload g.iframeUrl]
  | none => []

/-- The `iframe.onload` handler of variant 1 (lines 97-110): posts
`setParentDomain` with the host origin, then builds the `userDetails` payload
by reading `this.games[gameId].locale`/`.currency` — which throws a
`TypeError` when the game has been removed — posts it, and finally invokes the
host's `onGameLoad` callback when one was supplied.  Returns the (unchanged)
state, the emitted events in order, and the uncaught exception if any. -/
def fireOnload1 (c : Onload1) (hostOrigin : String) (st : SDK1) :
    SDK1 × List Ev × Option JsErr :=
  let first := postMessage1 st c.gameId
    (.obj [("action", .str "setParentDomain"), ("domain", .str hostOrigin)])
  match getK st.games c.gameId with
  | none =>
    (st, first, some (.typeError "Cannot read properties of undefined"))
  | some g =>
    let payload : JsVal := .obj
      [("action", .str "userDetails"), ("userId", c.userId),
       ("balance", c.balance), ("locale", g.locale), ("currency", g.currency)]
    let second := postMessage1 st c.gameId payload
    let loadCall := if c.hasOnGameLoad then [Ev.call c.gameId .onGameLoad .undef] else []
    (st, first ++ second ++ loadCall, none)

/-- The in-place mutation performed by the `updateLocaleAndCurrency` branch of
variant 1 `handleMessage` (lines 176-183): each of `locale` and `currency` is
overwritten by the corresponding payload field exactly when that field is
truthy (`if (locale) game.locale = locale`), and is left unchanged otherwise;
every other field of the record is untouched. -/
def updGame (ev : MsgEvent) (g : Game1) : Game1 :=
  { g with
    locale :=
      if truthy (getProp ev.data "locale") then getProp ev.data "locale"
      else g.locale
    currency :=
      if truthy (getProp ev.data "currency") then getProp ev.data "currency"
      else g.currency }

/-- Variant 1 `handleMessage` (lines 152-189), as bound to one game id: drops
the event when the game is absent; computes `new URL(game.iframeUrl).origin`
(which can throw); drops the event on origin mismatch; destructures
`event.data` (which throws on `null`/`undefined`); on `gameResult` invokes the
stored `onGameResult` with `data`; on `updateLocaleAndCurrency` overwrites
`locale`/`currency` when the corresponding payload field is truthy; on `error`
invokes the stored `onError` with `message`. -/
def handleMessage1 (gid : String) (ev : MsgEvent) (st : SDK1) :
    SDK1 × List Ev × Option JsErr :=
  match getK st.games gid with
  | none => (st, [], none)
  | some g =>
    match urlOrigin g.iframeUrl with
    | .error e => (st, [], some e)
    | .ok allowed =>
      if ev.origin = allowed then
        if isNullish ev.data then
          (st, [], some (.typeError "Cannot destructure event.data"))
        else
          let action := getProp ev.data "action"
          let resultEvs :=
            if isStrEq action "gameResult" then
              [Ev.call gid .onGameResult (getProp ev.data "data")]
            else []
          let errorEvs :=
            if isStrEq action "error" then
              [Ev.call gid .onError (getProp ev.data "message")]
            else []
          let st' :=
            if isStrEq action "updateLocaleAndCurrency" then
              { st with games := setK st.games gid (updGame ev g) }
            else st
          (st', resultEvs ++ errorEvs, none)
      else (st, [], none)

/-- One step of variant 1 message dispatch: run the listener bound to game
`l.2` on the current state and append its callback/post events. -/
def dispatchStep1 (ev : MsgEvent) (acc : SDK1 × List Ev) (l : Nat × String) :
    SDK1 × List Ev :=
  let r := handleMessage1 l.2 ev acc.1
  (r.1, acc.2 ++ r.2.1)

/-- Dispatch of one window `message` event in variant 1: every registered
listener runs in registration order on the state left by its predecessors; an
exception thrown inside one listener is reported by the browser but neither
stops the remaining listeners nor (since every throw in `handleMessage`
precedes any mutation) changes state. -/
def dispatch1 (ev : MsgEvent) (st : SDK1) : SDK1 × List Ev :=
  st.listeners.foldl (dispatchStep1 ev) (st, [])

/-! ## Variant 2 (lines 199-424 of src/questplay-sdk.js)

The constructor registers exactly one window `message` listener
(`this._boundMessageHandler`) for the whole SDK instance; there is no
`removeGame`, and inbound routing is by `event.source` identity. -/

/-- Stored per-game record of variant 2 (`this.games[gameId]`). -/
structure Game2 where
  iframeWin : Nat
  iframeUrl : String
  tenantName : String
  gameId : String
  userId : JsVal
  callbackUrl : String
  locale : JsVal
  currency : JsVal
  balance : JsVal
  ready : Bool

/-- Variant 2 SDK state: the game registry and the fresh content-window
counter.  The single `message` listener is registered once by the constructor
and never duplicated or removed, so it needs no bookkeeping. -/
structure SDK2 where
  games : List (String × Game2)
  nextWin : Nat

/-- Freshly constructed variant 2 SDK. -/
def init2 : SDK2 :=
  { games := [], nextWin := 0 }

/-- Configuration passed to variant 2 `addGame`.  The five required fields are
strings whose JavaScript falsiness (absence) is modelled by emptiness; the
source applies no `typeof` check to `getUserBalance`, so a missing function
(`none`) throws when called and is caught like a rejecting one. -/
structure Config2 where
  tenantName : String
  gameId : String
  containerId : String
  iframeUrl : String
  userId : JsVal
  getUserBalance : Option (Except Unit JsVal)
  locale : JsVal
  currency : JsVal
  callbackUrl : String
  hasOnGameLoad : Bool

/-- Failure outcomes of variant 2 `addGame` (each a `return this._fail(...)`,
leaving the SDK state untouched). -/
inductive AddErr2 where
  | missingConfig : AddErr2
  | duplicateSession : AddErr2
  | containerNotFound : AddErr2
  deriving DecidableEq, Repr

/-- The closure installed as `iframe.onload` in variant 2. -/
structure Onload2 where
  gameId : String
  tenantName : String
  userId : JsVal
  balance : JsVal
  callbackUrl : String
  hasOnGameLoad : Bool

/-- Variant 2 `addGame` (lines 219-291): requires `tenantName`, `gameId`,
`containerId`, `iframeUrl` and `callbackUrl` to be truthy, fails on a
duplicate id or a missing container; `balance` starts at `0` and a throwing
(or absent) `getUserBalance` is caught, keeping `0`; registers the game record
(including `balance` and `ready := false`) and installs the onload closure. -/
def addGame2 (cfg : Config2) (dom : List String) (st : SDK2) :
    SDK2 × Except AddErr2 Onload2 :=
  if strIsEmpty cfg.tenantName || strIsEmpty cfg.gameId || strIsEmpty cfg.containerId
      || strIsEmpty cfg.iframeUrl || strIsEmpty cfg.callbackUrl then
    (st, .error .missingConfig)
  else if (getK st.games cfg.gameId).isSome then
    (st, .error .duplicateSession)
  else if !(dom.any (fun c => decide (c = cfg.containerId))) then
    (st, .error .containerNotFound)
  else
    let balance : JsVal :=
      match cfg.getUserBalance with
      | some (.ok b) => b
      | some (.error _) => .num 0
      | none => .num 0
    let win := st.nextWin
    let g : Game2 :=
      { iframeWin := win
        iframeUrl := cfg.iframeUrl
        tenantName := cfg.tenantName
        gameId := cfg.gameId
        userId := cfg.userId
        callbackUrl := cfg.callbackUrl
        locale := if truthy cfg.locale then cfg.locale else .str "en-US"
        currency := if truthy cfg.currency then cfg.currency else .str "TZS"
        balance := balance
        ready := false }
    ({ games := setK st.games cfg.gameId g, nextWin := win + 1 },
     .ok { gameId := cfg.gameId, tenantName := cfg.tenantName, userId := cfg.userId,
           balance := balance, callbackUrl := cfg.callbackUrl,
           hasOnGameLoad := cfg.hasOnGameLoad })

/-- Variant 2 `_send` (lines 297-306): looks the game up and, when present,
posts `{ action, data }` to the game's content window with target origin
`"*"`; otherwise silently does nothing. -/
def send2 (st : SDK2) (gid : String) (action : String) (data : JsVal) : List Ev :=
  match getK st.games gid with
  | some g => [Ev.post g.iframeWin (.obj [("action", .str action), ("data", data)]) "*"]
  | none => []

/-- The `iframe.onload` handler of variant 2 (lines 277-290): sends
`setParentDomain` with the host origin, then builds the `userDetails` data
object — reading `this.games[gameId].locale`/`.currency`, which would throw if
the game record were gone (variant 2 has no removal, so this is unreachable) —
sends it, and invokes `onGameLoad?.()`. -/
def fireOnload2 (c : Onload2) (hostOrigin : String) (st : SDK2) :
    SDK2 × List Ev × Option JsErr :=
  let first := send2 st c.gameId "setParentDomain" (.str hostOrigin)
  match getK st.games c.gameId with
  | none =>
    (st, first, some (.typeError "Cannot read properties of undefined"))
  | some g =>
    let data : JsVal := .obj
      [("tenantName", .str c.tenantName), ("gameId", .str c.gameId),
       ("userId", c.userId), ("balance", c.balance),
       ("callbackUrl", .str c.callbackUrl),
       ("locale", g.locale), ("currency", g.currency)]
    let second := send2 st c.gameId "userDetails" data
    let loadCall := if c.hasOnGameLoad then [Ev.call c.gameId .onGameLoad .undef] else []
    (st, first ++ second ++ loadCall, none)

/-- Variant 2 `_handleMessage` (lines 308-334), the single listener:
destructures `event.data || {}` (total — a falsy `data` is replaced by the
empty object), returns when `action` is falsy, routes by finding the first
game whose `iframe.contentWindow` is `event.source`, returns when none
matches, and then handles `gameLoaded` (sets `ready`), `gameResult` (invokes
the stored `onGameResult` with `data`) and `error` (invokes the stored
`onError` with `message`); any other action falls through the `switch`. -/
def handleMessage2 (ev : MsgEvent) (st : SDK2) : SDK2 × List Ev :=
  let d := if truthy ev.data then ev.data else JsVal.obj []
  let action := getProp d "action"
  if !(truthy action) then (st, [])
  else
    match st.games.find? (fun p => decide (some p.2.iframeWin = ev.source)) with
    | none => (st, [])
    | some (gid, g) =>
      if isStrEq action "gameLoaded" then
        ({ st with games := setK st.games gid { g with ready := true } }, [])
      else if isStrEq action "gameResult" then
        (st, [Ev.call gid .onGameResult (getProp d "data")])
      else if isStrEq action "error" then
        (st, [Ev.call gid .onError (getProp d "message")])
      else (st, [])

/-! ## Concrete scenario inputs

Small host configurations used to exercise the above operations on concrete
runs (counterexamples and witnesses).  `dom0` is the host document containing
one embedding container. -/

/-- Host document with one container element, id `lobby`. -/
def dom0 : List String := ["lobby"]

/-- A valid variant 1 configuration for game `g1`. -/
def cfgA : Config1 :=
  { gameId := .str "g1", containerId := "lobby",
    iframeUrl := some "https://games.example/slot", userId := .str "u1",
    getUserBalance := some (.ok (.num 100)), locale := .undef, currency := .undef,
    hasOnGameLoad := true }

/-- A second variant 1 configuration, game `g2`, served from the same origin
as `g1`. -/
def cfgB : Config1 :=
  { cfgA with gameId := .str "g2", iframeUrl := some "https://games.example/pool" }

/-- A second variant 1 configuration, game `g2`, served from a different
origin than `g1`. -/
def cfgBfar : Config1 :=
  { cfgA with gameId := .str "g2", iframeUrl := some "https://other.example/pool" }

/-- The variant 1 registry record produced by `addGame1 cfgA`. -/
def gLitA : Game1 :=
  { iframeWin := 0, iframeParent := some "lobby",
    iframeUrl := "https://games.example/slot", userId := .str "u1",
    locale := .str "en-US", currency := .str "TZS" }

/-- The variant 1 registry record produced by `addGame1 cfgB` after `cfgA`. -/
def gLitB : Game1 :=
  { gLitA with iframeWin := 1, iframeUrl := "https://games.example/pool" }

/-- The variant 1 registry record produced by `addGame1 cfgBfar` after
`cfgA`. -/
def gLitBfar : Game1 :=
  { gLitA with iframeWin := 1, iframeUrl := "https://other.example/pool" }

/-- The onload closure produced by `addGame1 cfgA`. -/
def onloadA : Onload1 :=
  { gameId := "g1", userId := .str "u1", balance := .num 100, hasOnGameLoad := true }

/-- Variant 1 state after adding `g1`. -/
def stA : SDK1 := (addGame1 cfgA dom0 init1).1

/-- Variant 1 state after adding `g1` and the same-origin `g2`. -/
def stAB : SDK1 := (addGame1 cfgB dom0 stA).1

/-- Variant 1 state after adding `g1` and the different-origin `g2`. -/
def stABfar : SDK1 := (addGame1 cfgBfar dom0 stA).1

/-- Variant 1 state after adding both same-origin games and then removing
`g1`. -/
def stABrem : SDK1 := (removeGame1 "g1" stAB).1

/-- A `gameResult` message event as sent by the embedded context of `g1`
(content window `0`, carrying its true origin). -/
def evResultA : MsgEvent :=
  { origin := "https://games.example", source := some 0,
    data := .obj [("action", .str "gameResult"), ("data", .num 7)] }

/-- A `gameResult` message event from the removed `g1` context (stale window
`0`), still carrying the shared origin. -/
def evStale : MsgEvent :=
  { origin := "https://games.example", source := some 0,
    data := .obj [("action", .str "gameResult"), ("data", .num 3)] }

/-- A message event from an unknown origin and unknown window. -/
def evForeign : MsgEvent :=
  { origin := "https://stale.example", source := some 99,
    data := .obj [("action", .str "gameResult"), ("data", .num 3)] }

/-- A message event with `null` data from the true origin of `g1`. -/
def evNullData : MsgEvent :=
  { origin := "https://games.example", source := some 0, data := .null }

/-- An `updateLocaleAndCurrency` event whose payload carries a present but
empty `locale` field, from the true origin of `g1`. -/
def evEmptyLocale : MsgEvent :=
  { origin := "https://games.example", source := some 0,
    data := .obj [("action", .str "updateLocaleAndCurrency"), ("locale", .str "")] }

/-- A valid variant 2 configuration for game `g1`. -/
def cfg2A : Config2 :=
  { tenantName := "t1", gameId := "g1", containerId := "lobby",
    iframeUrl := "https://games.example/slot", userId := .str "u1",
    getUserBalance := some (.ok (.num 100)), locale := .undef, currency := .undef,
    callbackUrl := "https://host.example/cb", hasOnGameLoad := true }

/-- A second variant 2 configuration, game `g2`. -/
def cfg2B : Config2 :=
  { cfg2A with gameId := "g2", iframeUrl := "https://games.example/pool" }

/-- The variant 2 registry record produced by `addGame2 cfg2A`. -/
def g2LitA : Game2 :=
  { iframeWin := 0, iframeUrl := "https://games.example/slot", tenantName := "t1",
    gameId := "g1", userId := .str "u1", callbackUrl := "https://host.example/cb",
    locale := .str "en-US", currency := .str "TZS", balance := .num 100, ready := false }

/-- The variant 2 registry record produced by `addGame2 cfg2B` after
`cfg2A`. -/
def g2LitB : Game2 :=
  { g2LitA with iframeWin := 1, iframeUrl := "https://games.example/pool", gameId := "g2" }

/-- The onload closure produced by `addGame2 cfg2A`. -/
def onload2A : Onload2 :=
  { gameId := "g1", tenantName := "t1", userId := .str "u1", balance := .num 100,
    callbackUrl := "https://host.example/cb", hasOnGameLoad := true }

/-- Variant 2 state after adding `g1`. -/
def st2A : SDK2 := (addGame2 cfg2A dom0 init2).1

/-- Variant 2 state after adding `g1` and `g2`. -/
def st2AB : SDK2 := (addGame2 cfg2B dom0 st2A).1

/-- An `updateLocaleAndCurrency` event carrying only a `currency` field, from
the window of variant 2 game `g1`. -/
def evCurrencyOnly : MsgEvent :=
  { origin := "https://games.example", source := some 0,
    data := .obj [("action", .str "updateLocaleAndCurrency"), ("currency", .str "EUR")] }

/-- The `g1` variant 1 configuration with a balance fetch that throws. -/
def cfgAerr : Config1 :=
  { cfgA with getUserBalance := some (.error ()) }

/-- The `g1` variant 2 configuration with a balance fetch that throws. -/
def cfg2Aerr : Config2 :=
  { cfg2A with getUserBalance := some (.error ()) }

/-- The payload of the second outbound message of a trace (`undefined` when
there is no second `post` event). -/
def secondPayload (evs : List Ev) : JsVal :=
  match evs.get? 1 with
  | some (.post _ p _) => p
  | _ => (JsVal.undef : JsVal)

/-- Decidable equality of `Except` results (used to evaluate origin
comparisons on concrete inputs). -/
instance exceptDecEq [DecidableEq ε] [DecidableEq α] : DecidableEq (Except ε α) := fun x y =>
  match x, y with
  | .ok a, .ok b =>
    if h : a = b then isTrue (by rw [h]) else isFalse (fun he => h (by injection he))
  | .error a, .error b =>
    if h : a = b then isTrue (by rw [h]) else isFalse (fun he => h (by injection he))
  | .ok _, .error _ => isFalse (fun he => Except.noConfusion he)
  | .error _, .ok _ => isFalse (fun he => Except.noConfusion he)

/-! ## Map lemmas -/

lemma getK_setK_self (m : List (String × α)) (k : String) (v : α) :
    getK (setK m k v) k = some v := by
  induction m with
  | nil => simp [getK, setK]
  | cons p t ih =>
    by_cases h : p.1 = k
    · simp [getK, setK, h]
    · simp [getK, setK, h, ih]

lemma getK_setK_other (m : List (String × α)) (k k' : String) (v : α) (h : k' ≠ k) :
    getK (setK m k v) k' = getK m k' := by
  have h' : k ≠ k' := Ne.symm h
  induction m with
  | nil => simp [getK, setK, h']
  | cons p t ih =>
    by_cases hp : p.1 = k
    · simp [getK, setK, hp, h']
    · simp [getK, setK, hp, ih]

lemma getK_delK_self (m : List (String × α)) (k : String) :
    getK (delK m k) k = none := by
  induction m with
  | nil => simp [getK, delK]
  | cons p t ih =>
    by_cases h : p.1 = k
    · simpa [delK, List.filter_cons, h] using ih
    · simpa [getK, delK, List.filter_cons, h] using ih

lemma getK_mem (m : List (String × α)) (k : String) (v : α)
    (h : getK m k = some v) : (k, v) ∈ m := by
  induction m with
  | nil => simp [getK] at h
  | cons p t ih =>
    obtain ⟨a, b⟩ := p
    by_cases hp : a = k
    · subst hp
      simp [getK] at h
      subst h
      exact List.mem_cons_self _ _
    · simp [getK, hp] at h
      exact List.mem_cons_of_mem _ (ih h)

lemma mem_setK (m : List (String × α)) (k : String) (v : α) (q : String × α)
    (h : q ∈ setK m k v) : q ∈ m ∨ q = (k, v) := by
  induction m with
  | nil =>
    simp [setK] at h
    exact Or.inr h
  | cons p t ih =>
    by_cases hp : p.1 = k
    · simp [setK, hp] at h
      rcases h with h | h
      · exact Or.inr h
      · exact Or.inl (List.mem_cons_of_mem _ h)
    · simp [setK, hp] at h
      rcases h with h | h
      · exact Or.inl (h ▸ List.mem_cons_self _ _)
      · rcases ih h with h2 | h2
        · exact Or.inl (List.mem_cons_of_mem _ h2)
        · exact Or.inr h2

/-! ## Handler lemmas -/

/-- A variant 1 listener whose game is absent, or whose game's allowed origin
does not match the event origin (or does not even parse), leaves the state
unchanged and emits no event. -/
lemma handleMessage1_drop (gid : String) (ev : MsgEvent) (st : SDK1)
    (h : ∀ g, getK st.games gid = some g → urlOrigin g.iframeUrl ≠ .ok ev.origin) :
    (handleMessage1 gid ev st).1 = st ∧ (handleMessage1 gid ev st).2.1 = [] := by
  rcases hg : getK st.games gid with _ | g
  · simp [handleMessage1, hg]
  · rcases hu : urlOrigin g.iframeUrl with e | allowed
    · simp [handleMessage1, hg, hu]
    · have hne : ev.origin ≠ allowed := by
        intro he
        exact h g hg (by rw [he]; exact hu)
      simp [handleMessage1, hg, hu, hne]

/-- Characterization of a variant 1 listener on a message that passes its
lookup, origin-parse, origin-match and non-nullish-data checks. -/
lemma handleMessage1_matched (gid : String) (ev : MsgEvent) (st : SDK1) (g : Game1)
    (hg : getK st.games gid = some g)
    (hu : urlOrigin g.iframeUrl = .ok ev.origin)
    (hn : isNullish ev.data = false) :
    handleMessage1 gid ev st =
      ((if isStrEq (getProp ev.data "action") "updateLocaleAndCurrency" then
          { st with games := setK st.games gid (updGame ev g) }
        else st),
       (if isStrEq (getProp ev.data "action") "gameResult" then
          [Ev.call gid .onGameResult (getProp ev.data "data")]
        else []) ++
       (if isStrEq (getProp ev.data "action") "error" then
          [Ev.call gid .onError (getProp ev.data "message")]
        else []),
       none) := by
  simp [handleMessage1, hg, hu, hn]

/-- A variant 1 listener preserves the fact that every registry entry under
key `b` has an allowed origin different from the event origin, and it never
invokes a callback of an entry under key `b` under that hypothesis. -/
lemma handleMessage1_preserves (gid : String) (ev : MsgEvent) (st : SDK1) (b : String)
    (hP : ∀ g, (b, g) ∈ st.games → urlOrigin g.iframeUrl ≠ .ok ev.origin) :
    (∀ g, (b, g) ∈ (handleMessage1 gid ev st).1.games →
        urlOrigin g.iframeUrl ≠ .ok ev.origin) ∧
    (∀ k arg, Ev.call b k arg ∉ (handleMessage1 gid ev st).2.1) := by
  rcases hg : getK st.games gid with _ | g
  · simp only [handleMessage1, hg]
    exact ⟨hP, by simp⟩
  · rcases hu : urlOrigin g.iframeUrl with e | allowed
    · simp only [handleMessage1, hg, hu]
      exact ⟨hP, by simp⟩
    · by_cases ho : ev.origin = allowed
      · subst ho
        by_cases hb : gid = b
        · subst hb
          exact absurd hu (hP g (getK_mem _ _ _ hg))
        · by_cases hn : isNullish ev.data = true
          · simp only [handleMessage1, hg, hu, hn]
            simp only [if_true, ite_true, eq_self_iff_true]
            exact ⟨hP, by simp⟩
          · rw [handleMessage1_matched gid ev st g hg hu (by simpa using hn)]
            constructor
            · by_cases hup : isStrEq (getProp ev.data "action") "updateLocaleAndCurrency" = true
              · simp only [hup, if_true, ite_true]
                intro g2 hg2
                rcases mem_setK _ _ _ _ hg2 with hm | he
                · exact hP g2 hm
                · exact absurd (congrArg Prod.fst he) (fun hbg => hb hbg.symm)
              · simp only [hup, Bool.false_eq_true, if_false, ite_false]
                exact hP
            · intro k arg hmem
              rw [List.mem_append] at hmem
              rcases hmem with hm | hm
              · by_cases hc : isStrEq (getProp ev.data "action") "gameResult" = true
                · simp [hc] at hm
                  exact hb hm.1.symm
                · simp [hc] at hm
              · by_cases hc : isStrEq (getProp ev.data "action") "error" = true
                · simp [hc] at hm
                  exact hb hm.1.symm
                · simp [hc] at hm
      · simp only [handleMessage1, hg, hu]
        rw [if_neg ho]
        exact ⟨hP, by simp⟩

/-- Folding variant 1 dispatch over any listener list never invokes a callback
of a registry entry under key `b` when every entry under `b` has an allowed
origin different from the event origin. -/
lemma foldl_no_call (ev : MsgEvent) (b : String) (l : List (Nat × String)) :
    ∀ (st : SDK1) (evs : List Ev),
      (∀ g, (b, g) ∈ st.games → urlOrigin g.iframeUrl ≠ .ok ev.origin) →
      (∀ k arg, Ev.call b k arg ∉ evs) →
      ∀ k arg, Ev.call b k arg ∉ (l.foldl (dispatchStep1 ev) (st, evs)).2 := by
  induction l with
  | nil =>
    intro st evs _ hacc
    simpa using hacc
  | cons p t ih =>
    intro st evs hP hacc
    rw [List.foldl_cons]
    have hpres := handleMessage1_preserves p.2 ev st b hP
    have hstep : dispatchStep1 ev (st, evs) p
        = ((handleMessage1 p.2 ev st).1, evs ++ (handleMessage1 p.2 ev st).2.1) := rfl
    rw [hstep]
    refine ih _ _ hpres.1 ?_
    intro k arg hmem
    rcases List.mem_append.1 hmem with hm | hm
    · exact hacc k arg hm
    · exact hpres.2 k arg hm

/-- Dispatching one inbound event in variant 1 never invokes a callback of a
session `b` whose allowed origin differs from the event origin. -/
lemma dispatch1_no_call (ev : MsgEvent) (st : SDK1) (b : String)
    (hP : ∀ g, (b, g) ∈ st.games → urlOrigin g.iframeUrl ≠ .ok ev.origin) :
    ∀ k arg, Ev.call b k arg ∉ (dispatch1 ev st).2 :=
  foldl_no_call ev b st.listeners st [] hP (by simp)

/-- Folding variant 1 dispatch over any listener list is the identity when no
registered game's allowed origin matches the event origin. -/
lemma foldl_id_of_mismatch (ev : MsgEvent) (l : List (Nat × String)) :
    ∀ (st : SDK1) (evs : List Ev),
      (∀ p ∈ st.games, urlOrigin (p.2).iframeUrl ≠ .ok ev.origin) →
      l.foldl (dispatchStep1 ev) (st, evs) = (st, evs) := by
  induction l with
  | nil =>
    intro st evs _
    rfl
  | cons p t ih =>
    intro st evs h
    rw [List.foldl_cons]
    have hdrop := handleMessage1_drop p.2 ev st
      (fun g hg => h (p.2, g) (getK_mem _ _ _ hg))
    have hstep : dispatchStep1 ev (st, evs) p = (st, evs) := by
      simp [dispatchStep1, hdrop.1, hdrop.2]
    rw [hstep]
    exact ih st evs h

/-- Dispatching an inbound event whose origin matches no registered game is a
complete no-op in variant 1: state unchanged, no events. -/
lemma dispatch1_all_mismatch (ev : MsgEvent) (st : SDK1)
    (h : ∀ p ∈ st.games, urlOrigin (p.2).iframeUrl ≠ .ok ev.origin) :
    dispatch1 ev st = (st, []) :=
  foldl_id_of_mismatch ev st.listeners st [] h

/-- The variant 2 listener never invokes a callback of a registry entry under
key `b` when no entry under `b` has the event's source window. -/
lemma handleMessage2_no_call (ev : MsgEvent) (st2 : SDK2) (b : String)
    (hb : ∀ g, (b, g) ∈ st2.games → some g.iframeWin ≠ ev.source) :
    ∀ k arg, Ev.call b k arg ∉ (handleMessage2 ev st2).2 := by
  intro k arg
  simp only [handleMessage2]
  set action := getProp (if truthy ev.data then ev.data else JsVal.obj []) "action" with hA
  by_cases ht : truthy action = true
  · rcases hf : st2.games.find? (fun p => decide (some p.2.iframeWin = ev.source)) with _ | q
    · simp [ht, hf]
    · obtain ⟨gid, g⟩ := q
      have hmem : (gid, g) ∈ st2.games := List.mem_of_find?_eq_some hf
      have hpred : some g.iframeWin = ev.source := by
        simpa using List.find?_some hf
      have hgb : gid ≠ b := fun hbe => hb g (hbe ▸ hmem) hpred
      by_cases h1 : isStrEq action "gameLoaded" = true
      · simp [ht, hf, h1]
      · by_cases h2 : isStrEq action "gameResult" = true
        · simp [ht, hf, h1, h2]
          intro hbe
          exact absurd hbe.symm hgb
        · by_cases h3 : isStrEq action "error" = true
          · simp [ht, hf, h1, h2, h3]
            intro hbe
            exact absurd hbe.symm hgb
          · simp [ht, hf, h1, h2, h3]
  · simp [ht]

/-- The variant 2 listener is a complete no-op on a message whose source is
the content window of no registered game: state unchanged, no events. -/
lemma handleMessage2_unroutable (ev : MsgEvent) (st2 : SDK2)
    (h : ∀ p ∈ st2.games, some (p.2).iframeWin ≠ ev.source) :
    handleMessage2 ev st2 = (st2, []) := by
  have hf : st2.games.find? (fun p => decide (some p.2.iframeWin = ev.source)) = none := by
    rw [List.find?_eq_none]
    intro p hp
    simpa using h p hp
  simp only [handleMessage2, hf]
  exact ite_self _

/-- The variant 2 listener ignores `updateLocaleAndCurrency` entirely (no
branch of its `switch` handles it): state unchanged, no events. -/
lemma handleMessage2_update_noop (ev : MsgEvent) (st2 : SDK2)
    (ha : getProp ev.data "action" = .str "updateLocaleAndCurrency") :
    handleMessage2 ev st2 = (st2, []) := by
  have hobj : truthy ev.data = true := by
    rcases hE : ev.data with _ | _ | s | n | fs
    · rw [hE] at ha; simp [getProp] at ha
    · rw [hE] at ha; simp [getProp] at ha
    · rw [hE] at ha; simp [getProp] at ha
    · rw [hE] at ha; simp [getProp] at ha
    · rfl
  have htr : truthy (JsVal.str "updateLocaleAndCurrency") = true := rfl
  have e1 : isStrEq (JsVal.str "updateLocaleAndCurrency") "gameLoaded" = false := rfl
  have e2 : isStrEq (JsVal.str "updateLocaleAndCurrency") "gameResult" = false := rfl
  have e3 : isStrEq (JsVal.str "updateLocaleAndCurrency") "error" = false := rfl
  rcases hf : st2.games.find? (fun p => decide (some p.2.iframeWin = ev.source)) with _ | q
  · simp [handleMessage2, hobj, ha, hf]
  · obtain ⟨gid, g⟩ := q
    simp [handleMessage2, hobj, ha, hf, htr, e1, e2, e3]

/-- Variant 1 `removeGame` on an absent id: warns and returns, leaving the
state untouched. -/
lemma removeGame1_absent (gid : String) (st : SDK1)
    (h : getK st.games gid = none) :
    removeGame1 gid st = (st, .error .notFound) := by
  simp [removeGame1, h]

/-- Variant 1 `removeGame` on a present id: detaches the entry and calls
`removeEventListener` with a freshly bound function (which removes nothing,
since no registered listener has the fresh identity). -/
lemma removeGame1_present (gid : String) (st : SDK1) (g : Game1)
    (hg : getK st.games gid = some g) :
    removeGame1 gid st =
      ({ games := delK st.games gid,
         listeners := st.listeners.filter (fun p => p.1 != st.nextFun),
         nextFun := st.nextFun + 1, nextWin := st.nextWin }, .ok ()) := by
  simp [removeGame1, hg]

/-- The variant 1 load handler run after its game has been removed: the first
`postMessage` silently no-ops, and building the `userDetails` payload throws
before anything is sent or any callback is invoked; state is untouched. -/
lemma fireOnload1_removed (c : Onload1) (host : String) (st : SDK1)
    (hnone : getK st.games c.gameId = none) :
    fireOnload1 c host st =
      (st, [], some (.typeError "Cannot read properties of undefined")) := by
  simp [fireOnload1, postMessage1, hnone]

/-! ## Claims -/

/-- Claim C1, counterexample: the claim asserts that the `userDetails` message
carries tenant/callback identifiers, but in variant 1 the load handler of the
concrete session `g1` posts a `userDetails` payload that has no `tenantName`
and no `callbackUrl` field at all (the variant 1 source builds the payload
from `userId`, `balance`, `locale`, `currency` only). -/
theorem C1_counterexample :
    addGame1 cfgA dom0 init1 = (stA, .ok onloadA) ∧
    getProp (secondPayload (fireOnload1 onloadA "https://host.example" stA).2.1) "action"
      = .str "userDetails" ∧
    getProp (secondPayload (fireOnload1 onloadA "https://host.example" stA).2.1) "tenantName"
      = .undef ∧
    getProp (secondPayload (fireOnload1 onloadA "https://host.example" stA).2.1) "callbackUrl"
      = .undef :=
  ⟨rfl, rfl, rfl, rfl⟩

/-- Claim C1 (amended): for every live session, the load signal makes the
engine emit exactly two outbound messages to that session's context, in order
`setParentDomain` (carrying the host origin) then `userDetails` — carrying
userId, balance, locale, currency in variant 1, and additionally tenantName,
gameId and callbackUrl in variant 2 — and then invoke the session's
`onGameLoad` callback exactly once, after both messages. -/
theorem C1_theorem (st : SDK1) (c : Onload1) (g : Game1) (host : String)
    (hg : getK st.games c.gameId = some g) (hcb : c.hasOnGameLoad = true)
    (st2 : SDK2) (c2 : Onload2) (g2 : Game2)
    (hg2 : getK st2.games c2.gameId = some g2) (hcb2 : c2.hasOnGameLoad = true) :
    fireOnload1 c host st = (st,
      [Ev.post g.iframeWin
         (.obj [("action", .str "setParentDomain"), ("domain", .str host)]) g.iframeUrl,
       Ev.post g.iframeWin
         (.obj [("action", .str "userDetails"), ("userId", c.userId),
                ("balance", c.balance), ("locale", g.locale), ("currency", g.currency)])
         g.iframeUrl,
       Ev.call c.gameId .onGameLoad .undef], none) ∧
    fireOnload2 c2 host st2 = (st2,
      [Ev.post g2.iframeWin
         (.obj [("action", .str "setParentDomain"), ("data", .str host)]) "*",
       Ev.post g2.iframeWin
         (.obj [("action", .str "userDetails"),
                ("data", .obj
                  [("tenantName", .str c2.tenantName), ("gameId", .str c2.gameId),
                   ("userId", c2.userId), ("balance", c2.balance),
                   ("callbackUrl", .str c2.callbackUrl),
                   ("locale", g2.locale), ("currency", g2.currency)])]) "*",
       Ev.call c2.gameId .onGameLoad .undef], none) := by
  constructor
  · simp [fireOnload1, postMessage1, hg, hcb]
  · simp [fireOnload2, send2, hg2, hcb2]

/-- Claim C1, witness: the amended claim evaluated on the concrete sessions
`g1` of both variants. -/
theorem C1_witness :
    fireOnload1 onloadA "https://host.example" stA = (stA,
      [Ev.post 0 (.obj [("action", .str "setParentDomain"),
         ("domain", .str "https://host.example")]) "https://games.example/slot",
       Ev.post 0 (.obj [("action", .str "userDetails"), ("userId", .str "u1"),
         ("balance", .num 100), ("locale", .str "en-US"), ("currency", .str "TZS")])
         "https://games.example/slot",
       Ev.call "g1" .onGameLoad .undef], none) ∧
    fireOnload2 onload2A "https://host.example" st2A = (st2A,
      [Ev.post 0 (.obj [("action", .str "setParentDomain"),
         ("data", .str "https://host.example")]) "*",
       Ev.post 0 (.obj [("action", .str "userDetails"),
         ("data", .obj [("tenantName", .str "t1"), ("gameId", .str "g1"),
           ("userId", .str "u1"), ("balance", .num 100),
           ("callbackUrl", .str "https://host.example/cb"),
           ("locale", .str "en-US"), ("currency", .str "TZS")])]) "*",
       Ev.call "g1" .onGameLoad .undef], none) :=
  C1_theorem stA onloadA gLitA "https://host.example" rfl rfl st2A onload2A g2LitA rfl rfl

/-- Claim C2: creating a session whose id already exists in the registry fails
with the duplicate-session error and returns the state unchanged (so the
existing session's stored record, iframe handle, locale, currency and
callbacks are all unaffected and nothing new is registered), in both
variants. -/
theorem C2_theorem (cfg : Config1) (dom : List String) (st : SDK1) (gid : String) (g : Game1)
    (hid : cfg.gameId = .str gid) (hne : strIsEmpty gid = false)
    (hdup : getK st.games gid = some g)
    (cfg2 : Config2) (dom2 : List String) (st2 : SDK2) (g2 : Game2)
    (ht2 : strIsEmpty cfg2.tenantName = false) (hg2 : strIsEmpty cfg2.gameId = false)
    (hc2 : strIsEmpty cfg2.containerId = false) (hu2 : strIsEmpty cfg2.iframeUrl = false)
    (hcb2 : strIsEmpty cfg2.callbackUrl = false)
    (hdup2 : getK st2.games cfg2.gameId = some g2) :
    addGame1 cfg dom st = (st, .error .duplicateSession) ∧
    addGame2 cfg2 dom2 st2 = (st2, .error .duplicateSession) := by
  constructor
  · simp [addGame1, hid, hne, hdup]
  · simp [addGame2, ht2, hg2, hc2, hu2, hcb2, hdup2]

/-- Claim C2, witness: re-adding `g1` on top of the states that already
contain `g1`, in both variants. -/
theorem C2_witness :
    addGame1 cfgA dom0 stA = (stA, .error .duplicateSession) ∧
    addGame2 cfg2A dom0 st2A = (st2A, .error .duplicateSession) :=
  C2_theorem cfgA dom0 stA "g1" gLitA rfl rfl rfl
    cfg2A dom0 st2A g2LitA rfl rfl rfl rfl rfl rfl

/-- Claim C3, counterexample: two live variant 1 sessions `g1` and `g2` whose
games are served from the same origin; a `gameResult` message whose sender is
`g1`'s content window (window 0) and which carries that shared origin invokes
both `g1`'s and `g2`'s `onGameResult` — variant 1 routes by origin only, so
routing isolation fails for same-origin sessions. -/
theorem C3_counterexample :
    getK stAB.games "g1" = some gLitA ∧
    getK stAB.games "g2" = some gLitB ∧
    evResultA.source = some gLitA.iframeWin ∧
    (dispatch1 evResultA stAB).2 =
      [Ev.call "g1" .onGameResult (.num 7), Ev.call "g2" .onGameResult (.num 7)] :=
  ⟨rfl, rfl, rfl, rfl⟩

/-- Claim C3 (amended): routing isolation holds in variant 2 for all payloads
and origins (a message whose source is not session B's content window never
invokes B's callbacks), and in variant 1 it holds exactly origin-wise: a
session B whose allowed origin differs from the message origin never has a
callback invoked, for all payloads. -/
theorem C3_theorem (st : SDK1) (ev : MsgEvent) (b : String)
    (hP : ∀ g, (b, g) ∈ st.games → urlOrigin g.iframeUrl ≠ .ok ev.origin)
    (st2 : SDK2) (ev2 : MsgEvent) (b2 : String)
    (hb : ∀ g, (b2, g) ∈ st2.games → some g.iframeWin ≠ ev2.source) :
    (∀ k arg, Ev.call b k arg ∉ (dispatch1 ev st).2) ∧
    (∀ k arg, Ev.call b2 k arg ∉ (handleMessage2 ev2 st2).2) :=
  ⟨dispatch1_no_call ev st b hP, handleMessage2_no_call ev2 st2 b2 hb⟩

/-- Claim C3, witness: a `gameResult` event from `g1` never reaches the
different-origin `g2` in variant 1, and never reaches the different-window
`g2` in variant 2. -/
theorem C3_witness :
    Ev.call "g2" CbKind.onGameResult (JsVal.num 7) ∉ (dispatch1 evResultA stABfar).2 ∧
    Ev.call "g2" CbKind.onGameResult (JsVal.num 7) ∉ (handleMessage2 evResultA st2AB).2 := by
  have h := C3_theorem stABfar evResultA "g2"
    (by
      intro g hg
      have he : stABfar.games = [("g1", gLitA), ("g2", gLitBfar)] := rfl
      rw [he] at hg
      simp only [List.mem_cons, List.not_mem_nil, or_false, Prod.mk.injEq] at hg
      rcases hg with ⟨h1, _⟩ | ⟨_, h2⟩
      · exact absurd h1 (by decide)
      · subst h2
        decide)
    st2AB evResultA "g2"
    (by
      intro g hg
      have he : st2AB.games = [("g1", g2LitA), ("g2", g2LitB)] := rfl
      rw [he] at hg
      simp only [List.mem_cons, List.not_mem_nil, or_false, Prod.mk.injEq] at hg
      rcases hg with ⟨h1, _⟩ | ⟨_, h2⟩
      · exact absurd h1 (by decide)
      · subst h2
        decide)
  exact ⟨h.1 CbKind.onGameResult (JsVal.num 7), h.2 CbKind.onGameResult (JsVal.num 7)⟩

/-- Claim C4, counterexample: after removing `g1`, a message from `g1`'s stale
content window (window 0, which is the window of no live session) carrying the
origin shared with the still-live `g2` is not dropped by variant 1: it invokes
`g2`'s `onGameResult`, so an unroutable-sender message does produce a callback
invocation. -/
theorem C4_counterexample :
    (removeGame1 "g1" stAB).1 = stABrem ∧
    stABrem.games = [("g2", gLitB)] ∧
    gLitB.iframeWin = 1 ∧
    evStale.source = some 0 ∧
    dispatch1 evStale stABrem = (stABrem, [Ev.call "g2" .onGameResult (.num 3)]) :=
  ⟨rfl, rfl, rfl, rfl, rfl⟩

/-- Claim C4 (amended): a message whose sender resolves to no live session is
a complete no-op — zero callbacks, zero registry or session mutation — in
variant 2 unconditionally (source-identity routing), and in variant 1 whenever
the message's origin differs from every live session's allowed origin; in
variant 1 a stale-sender message carrying a live session's origin is instead
handled as that session's message. -/
theorem C4_theorem (st2 : SDK2) (ev2 : MsgEvent)
    (h2 : ∀ p ∈ st2.games, some (p.2).iframeWin ≠ ev2.source)
    (st : SDK1) (ev : MsgEvent)
    (h1 : ∀ p ∈ st.games, urlOrigin (p.2).iframeUrl ≠ .ok ev.origin) :
    handleMessage2 ev2 st2 = (st2, []) ∧ dispatch1 ev st = (st, []) :=
  ⟨handleMessage2_unroutable ev2 st2 h2, dispatch1_all_mismatch ev st h1⟩

/-- Claim C4, witness: a message from an unknown window and unknown origin is
a complete no-op on the two-session states of both variants. -/
theorem C4_witness :
    handleMessage2 evForeign st2AB = (st2AB, []) ∧
    dispatch1 evForeign stAB = (stAB, []) :=
  C4_theorem st2AB evForeign
    (by
      intro p hp
      have he : st2AB.games = [("g1", g2LitA), ("g2", g2LitB)] := rfl
      rw [he] at hp
      simp only [List.mem_cons, List.not_mem_nil, or_false] at hp
      rcases hp with h | h
      · subst h
        decide
      · subst h
        decide)
    stAB evForeign
    (by
      intro p hp
      have he : stAB.games = [("g1", gLitA), ("g2", gLitB)] := rfl
      rw [he] at hp
      simp only [List.mem_cons, List.not_mem_nil, or_false] at hp
      rcases hp with h | h
      · subst h
        decide
      · subst h
        decide)

/-- Claim C5, counterexample: the claim says each field is overwritten exactly
when present in the payload.  In variant 2 an `updateLocaleAndCurrency`
message with a present `currency` field leaves the session's currency
unchanged (the variant 2 `switch` has no branch for that action), and in
variant 1 a present-but-empty `locale` field leaves the locale unchanged (the
guard is truthiness, not presence). -/
theorem C5_counterexample :
    getProp evCurrencyOnly.data "currency" = .str "EUR" ∧
    evCurrencyOnly.source = some g2LitA.iframeWin ∧
    handleMessage2 evCurrencyOnly st2A = (st2A, []) ∧
    (getK (handleMessage2 evCurrencyOnly st2A).1.games "g1").map Game2.currency
      = some (.str "TZS") ∧
    getProp evEmptyLocale.data "locale" = .str "" ∧
    (getK (handleMessage1 "g1" evEmptyLocale stA).1.games "g1").map Game1.locale
      = some (.str "en-US") :=
  ⟨rfl, rfl, rfl, rfl, rfl, rfl⟩

/-- Claim C5 (amended): in variant 1, on a routable `updateLocaleAndCurrency`
message each of the session's `locale` and `currency` is overwritten in place
exactly when the corresponding payload field is present with a truthy
(non-empty, non-null) value, an absent or falsy field leaves the session field
unchanged, every other field of the session and every other session are
untouched, and no callback is invoked; variant 2 ignores the action entirely
(state unchanged, no events). -/
theorem C5_theorem (st : SDK1) (gid : String) (g : Game1) (ev : MsgEvent)
    (hg : getK st.games gid = some g)
    (hu : urlOrigin g.iframeUrl = .ok ev.origin)
    (hn : isNullish ev.data = false)
    (ha : getProp ev.data "action" = .str "updateLocaleAndCurrency")
    (st2 : SDK2) (ev2 : MsgEvent)
    (ha2 : getProp ev2.data "action" = .str "updateLocaleAndCurrency") :
    handleMessage1 gid ev st =
      ({ st with games := setK st.games gid (updGame ev g) }, [], none) ∧
    (updGame ev g).locale =
      (if truthy (getProp ev.data "locale") then getProp ev.data "locale" else g.locale) ∧
    (updGame ev g).currency =
      (if truthy (getProp ev.data "currency") then getProp ev.data "currency" else g.currency) ∧
    (updGame ev g).iframeWin = g.iframeWin ∧
    (updGame ev g).iframeUrl = g.iframeUrl ∧
    (updGame ev g).userId = g.userId ∧
    getK (setK st.games gid (updGame ev g)) gid = some (updGame ev g) ∧
    (∀ k, k ≠ gid → getK (setK st.games gid (updGame ev g)) k = getK st.games k) ∧
    handleMessage2 ev2 st2 = (st2, []) := by
  have ha1 : isStrEq (getProp ev.data "action") "updateLocaleAndCurrency" = true := by
    rw [ha]; rfl
  have hr : isStrEq (getProp ev.data "action") "gameResult" = false := by
    rw [ha]; rfl
  have herr : isStrEq (getProp ev.data "action") "error" = false := by
    rw [ha]; rfl
  refine ⟨?_, rfl, rfl, rfl, rfl, rfl, getK_setK_self _ _ _, ?_,
    handleMessage2_update_noop ev2 st2 ha2⟩
  · rw [handleMessage1_matched gid ev st g hg hu hn]
    simp [ha1, hr, herr]
  · intro k hk
    exact getK_setK_other _ _ _ _ hk

/-- Claim C5, witness: the amended behavior on the concrete sessions — in
variant 1 a falsy `locale` payload field leaves the record unchanged, and in
variant 2 a currency-only update is ignored. -/
theorem C5_witness :
    handleMessage1 "g1" evEmptyLocale stA = (stA, [], none) ∧
    handleMessage2 evCurrencyOnly st2A = (st2A, []) := by
  have h := C5_theorem stA "g1" gLitA evEmptyLocale rfl rfl rfl rfl
    st2A evCurrencyOnly rfl
  refine ⟨?_, h.2.2.2.2.2.2.2.2⟩
  rw [h.1]
  rfl

/-- Claim C6: removing a session id that is not in the registry fails with the
not-found error and returns the state unchanged (registry size and contents
preserved); consequently removing the same id twice has the second removal
fail cleanly with not-found and mutate nothing. -/
theorem C6_theorem (st : SDK1) (gid : String)
    (habs : getK st.games gid = none)
    (st' : SDK1) (gid' : String) (g : Game1)
    (hpres : getK st'.games gid' = some g) :
    removeGame1 gid st = (st, .error .notFound) ∧
    removeGame1 gid' ((removeGame1 gid' st').1) =
      ((removeGame1 gid' st').1, .error .notFound) := by
  constructor
  · exact removeGame1_absent gid st habs
  · have h1 : (removeGame1 gid' st').1.games = delK st'.games gid' := by
      rw [removeGame1_present gid' st' g hpres]
    have h2 : getK ((removeGame1 gid' st').1).games gid' = none := by
      rw [h1]
      exact getK_delK_self _ _
    exact removeGame1_absent gid' _ h2

/-- Claim C6, witness: removing the absent id `nope`, and removing `g1`
twice, on the concrete variant 1 state. -/
theorem C6_witness :
    removeGame1 "nope" stA = (stA, .error .notFound) ∧
    removeGame1 "g1" ((removeGame1 "g1" stA).1) =
      ((removeGame1 "g1" stA).1, .error .notFound) :=
  C6_theorem stA "nope" rfl stA "g1" gLitA rfl

/-- Removal of a just-registered session followed by its late load signal:
the removal succeeds and the load handler becomes a messageless, callbackless,
mutationless handler that dies on a `TypeError`. -/
lemma create_remove_load (st0 : SDK1) (gid : String) (gX : Game1) (cI : Onload1)
    (host : String) (hgid : cI.gameId = gid)
    (st1 : SDK1) (hst1 : st1.games = setK st0.games gid gX) :
    (removeGame1 cI.gameId st1).2 = .ok () ∧
    fireOnload1 cI host ((removeGame1 cI.gameId st1).1) =
      (((removeGame1 cI.gameId st1).1), [],
       some (.typeError "Cannot read properties of undefined")) := by
  have hget : getK st1.games cI.gameId = some gX := by
    rw [hgid, hst1]
    exact getK_setK_self _ _ _
  have hrem := removeGame1_present cI.gameId st1 gX hget
  refine ⟨by rw [hrem], ?_⟩
  apply fireOnload1_removed
  rw [hrem]
  exact getK_delK_self _ _

/-- Claim C7: for every valid configuration, creating a session and removing
it before the load signal means `onGameLoad` is never invoked (its only
invocation site is the load handler below), and a load signal arriving after
the removal sends no outbound message, runs no callback and mutates no state
(the handler dies on a `TypeError` while building the `userDetails` payload,
before any send or callback). -/
theorem C7_theorem (cfg : Config1) (dom : List String) (st0 : SDK1)
    (gid url : String) (fetch : Except Unit JsVal) (host : String)
    (hid : cfg.gameId = .str gid) (hne : strIsEmpty gid = false)
    (hnodup : getK st0.games gid = none)
    (hcont : dom.any (fun c => decide (c = cfg.containerId)) = true)
    (hurl : cfg.iframeUrl = some url) (hhttp : strStartsWith url "http" = true)
    (hbal : cfg.getUserBalance = some fetch) :
    ∀ st1 c, addGame1 cfg dom st0 = (st1, .ok c) →
      (removeGame1 c.gameId st1).2 = .ok () ∧
      fireOnload1 c host ((removeGame1 c.gameId st1).1) =
        (((removeGame1 c.gameId st1).1), [],
         some (.typeError "Cannot read properties of undefined")) := by
  intro st1 c h
  rcases fetch with e | b
  · have hadd : addGame1 cfg dom st0 =
        ({ games := setK st0.games gid
             { iframeWin := st0.nextWin, iframeParent := some cfg.containerId,
               iframeUrl := url, userId := cfg.userId,
               locale := if truthy cfg.locale then cfg.locale else .str "en-US",
               currency := if truthy cfg.currency then cfg.currency else .str "TZS" },
           listeners := st0.listeners ++ [(st0.nextFun, gid)],
           nextFun := st0.nextFun + 1, nextWin := st0.nextWin + 1 },
         .ok { gameId := gid, userId := cfg.userId, balance := .num 0,
               hasOnGameLoad := cfg.hasOnGameLoad }) := by
      simp [addGame1, hid, hne, hnodup, hcont, hurl, hhttp, hbal]
    rw [hadd] at h
    injection h with h1 h2
    injection h2 with h2
    subst h1
    subst h2
    exact create_remove_load st0 gid _ _ host rfl _ rfl
  · have hadd : addGame1 cfg dom st0 =
        ({ games := setK st0.games gid
             { iframeWin := st0.nextWin, iframeParent := some cfg.containerId,
               iframeUrl := url, userId := cfg.userId,
               locale := if truthy cfg.locale then cfg.locale else .str "en-US",
               currency := if truthy cfg.currency then cfg.currency else .str "TZS" },
           listeners := st0.listeners ++ [(st0.nextFun, gid)],
           nextFun := st0.nextFun + 1, nextWin := st0.nextWin + 1 },
         .ok { gameId := gid, userId := cfg.userId, balance := b,
               hasOnGameLoad := cfg.hasOnGameLoad }) := by
      simp [addGame1, hid, hne, hnodup, hcont, hurl, hhttp, hbal]
    rw [hadd] at h
    injection h with h1 h2
    injection h2 with h2
    subst h1
    subst h2
    exact create_remove_load st0 gid _ _ host rfl _ rfl

/-- Claim C7, witness: create `g1`, remove it, then deliver the load signal on
the concrete configuration. -/
theorem C7_witness :
    (removeGame1 onloadA.gameId stA).2 = .ok () ∧
    fireOnload1 onloadA "https://host.example" ((removeGame1 onloadA.gameId stA).1) =
      (((removeGame1 onloadA.gameId stA).1), [],
       some (.typeError "Cannot read properties of undefined")) :=
  C7_theorem cfgA dom0 init1 "g1" "https://games.example/slot" (.ok (.num 100))
    "https://host.example" rfl rfl rfl rfl rfl rfl rfl stA onloadA rfl

/-- Claim C8 is violated by the code (code bug): the variant 1 message handler
is not total — for the live session `g1` and a message from its correct
origin whose `data` is `null`, destructuring `event.data` throws an uncaught
`TypeError` (the spec requires every handler body to be a total function that
never throws). -/
theorem C8_theorem :
    getK stA.games "g1" = some gLitA ∧
    urlOrigin gLitA.iframeUrl = .ok "https://games.example" ∧
    evNullData.origin = "https://games.example" ∧
    evNullData.data = .null ∧
    handleMessage1 "g1" evNullData stA =
      (stA, [], some (.typeError "Cannot destructure event.data")) :=
  ⟨rfl, rfl, rfl, rfl, rfl⟩

/-- Claim C9: when the balance-resolving function throws, session creation
still succeeds in both variants — the session is registered, the embedded
context is instantiated, the session's balance is `0`, and (since creation
emits no callback events at all in either variant) the failure is never
surfaced to `onError`. -/
theorem C9_theorem (cfg : Config1) (dom : List String) (st : SDK1) (gid url : String)
    (hid : cfg.gameId = .str gid) (hne : strIsEmpty gid = false)
    (hnodup : getK st.games gid = none)
    (hcont : dom.any (fun c => decide (c = cfg.containerId)) = true)
    (hurl : cfg.iframeUrl = some url) (hhttp : strStartsWith url "http" = true)
    (hbal : cfg.getUserBalance = some (.error ()))
    (cfg2 : Config2) (dom2 : List String) (st2 : SDK2)
    (h2t : strIsEmpty cfg2.tenantName = false) (h2g : strIsEmpty cfg2.gameId = false)
    (h2c : strIsEmpty cfg2.containerId = false) (h2u : strIsEmpty cfg2.iframeUrl = false)
    (h2cb : strIsEmpty cfg2.callbackUrl = false)
    (hnodup2 : getK st2.games cfg2.gameId = none)
    (hcont2 : dom2.any (fun c => decide (c = cfg2.containerId)) = true)
    (hbal2 : cfg2.getUserBalance = some (.error ())) :
    (addGame1 cfg dom st).2 = .ok
      { gameId := gid, userId := cfg.userId, balance := .num 0,
        hasOnGameLoad := cfg.hasOnGameLoad } ∧
    ((getK (addGame1 cfg dom st).1.games gid).isSome = true) ∧
    ((addGame2 cfg2 dom2 st2).2 = .ok
      { gameId := cfg2.gameId, tenantName := cfg2.tenantName, userId := cfg2.userId,
        balance := .num 0, callbackUrl := cfg2.callbackUrl,
        hasOnGameLoad := cfg2.hasOnGameLoad }) ∧
    ((getK (addGame2 cfg2 dom2 st2).1.games cfg2.gameId).map Game2.balance
      = some (.num 0)) := by
  refine ⟨?_, ?_, ?_, ?_⟩
  · simp [addGame1, hid, hne, hnodup, hcont, hurl, hhttp, hbal]
  · simp [addGame1, hid, hne, hnodup, hcont, hurl, hhttp, hbal, getK_setK_self]
  · simp [addGame2, h2t, h2g, h2c, h2u, h2cb, hnodup2, hcont2, hbal2]
  · simp [addGame2, h2t, h2g, h2c, h2u, h2cb, hnodup2, hcont2, hbal2, getK_setK_self]

/-- Claim C9, witness: the throwing-balance configurations of both variants
evaluated from the empty state. -/
theorem C9_witness :
    (addGame1 cfgAerr dom0 init1).2 = .ok
      { gameId := "g1", userId := .str "u1", balance := .num 0, hasOnGameLoad := true } ∧
    ((getK (addGame1 cfgAerr dom0 init1).1.games "g1").isSome = true) ∧
    ((addGame2 cfg2Aerr dom0 init2).2 = .ok
      { gameId := "g1", tenantName := "t1", userId := .str "u1", balance := .num 0,
        callbackUrl := "https://host.example/cb", hasOnGameLoad := true }) ∧
    ((getK (addGame2 cfg2Aerr dom0 init2).1.games "g1").map Game2.balance
      = some (.num 0)) :=
  C9_theorem cfgAerr dom0 init1 "g1" "https://games.example/slot"
    rfl rfl rfl rfl rfl rfl rfl
    cfg2Aerr dom0 init2 rfl rfl rfl rfl rfl rfl rfl rfl

/-- Claim C10 is violated by the code (code bug, acknowledged by the spec's
design notes): in variant 1 each `addGame` registers a freshly bound listener
and `removeGame` calls `removeEventListener` with another freshly bound
function, which matches no registered listener — so removal deregisters
nothing and repeated create/remove cycles accumulate one listener per
creation: after one add+remove of `g1` its listener is still registered, and
after a second add+remove two listeners bound to `g1` remain. -/
theorem C10_theorem :
    (addGame1 cfgA dom0 init1).1.listeners = [(0, "g1")] ∧
    (removeGame1 "g1" (addGame1 cfgA dom0 init1).1).1.listeners = [(0, "g1")] ∧
    (addGame1 cfgA dom0 (removeGame1 "g1" (addGame1 cfgA dom0 init1).1).1).1.listeners
      = [(0, "g1"), (2, "g1")] ∧
    (removeGame1 "g1"
        (addGame1 cfgA dom0 (removeGame1 "g1" (addGame1 cfgA dom0 init1).1).1).1).1.listeners
      = [(0, "g1"), (2, "g1")] :=
  ⟨rfl, rfl, rfl, rfl⟩

end QuestPlay
